import Mathlib

/-!
Shallow embedding of the Medical-AI-System record core
(src/agents/new_agents/medical_record_validator.py and
src/agents/new_agents/medical_record_agent.py) and proofs about it.

Python values that flow through the validator and the record store are
modelled by `Value` (strings, integers, and `None`); a Python dict is an
association list in insertion order (`Pydict`).  Exceptions are modelled
with `Except PyErr`.
-/

namespace MedRec

/-- A Python value as it appears in record field maps: a string, an int,
or `None`.  (Floats, lists and nested dicts never reach the validator or
the store's field maps in this code base.) -/
inductive Value where
  | str : String → Value
  | int : Int → Value
  | vnone : Value
deriving DecidableEq, Repr

/-- `dataclass ValidationError`: field, message, code. -/
structure ValidationError where
  field : String
  message : String
  code : String
deriving DecidableEq, Repr

/-- A Python exception that escapes a validator or store call:
`ValueError` (with its message), `TypeError`, or a sqlite error
(constraint violation / bad SQL). -/
inductive PyErr where
  | valueError : String → PyErr
  | typeError : PyErr
  | sqlError : PyErr
deriving DecidableEq, Repr

/-- Python truthiness for the values we model:
`bool("") = False`, `bool(0) = False`, `bool(None) = False`. -/
def truthy : Value → Bool
  | .str s => !(s == "")
  | .int n => !(n == 0)
  | .vnone => false

/-- Python `str(value)` for the values we model. -/
def pyStr : Value → String
  | .str s => s
  | .int n => toString n
  | .vnone => "None"

/-! ### datetime.strptime(value, "%Y-%m-%d")

`%Y` matches 1–4 digits, `%m` and `%d` match 1–2 digits, the separators
must be literal `-`, the whole string must be consumed, and the
resulting (year, month, day) must be a valid calendar date
(year ≥ 1, 1 ≤ month ≤ 12, 1 ≤ day ≤ days in that month). -/

def isLeapYear (y : Nat) : Bool :=
  y % 4 == 0 && (y % 100 != 0 || y % 400 == 0)

def daysInMonth (y m : Nat) : Nat :=
  if m == 2 then (if isLeapYear y then 29 else 28)
  else if m == 4 || m == 6 || m == 9 || m == 11 then 30
  else 31

/-- Split a character list on `-` separators (the literal separators of
the `%Y-%m-%d` pattern). -/
def splitDash : List Char → List (List Char)
  | [] => [[]]
  | '-' :: rest => [] :: splitDash rest
  | c :: rest =>
    match splitDash rest with
    | g :: gs => (c :: g) :: gs
    | [] => [[c]]

/-- A digit group of a strptime pattern: non-empty, all digits, at most
`w` characters. -/
def digitGroup (w : Nat) (cs : List Char) : Bool :=
  !(cs == []) && cs.length ≤ w && cs.all Char.isDigit

/-- The number denoted by a digit group. -/
def digitsToNat (cs : List Char) : Nat :=
  cs.foldl (fun a c => 10 * a + (c.toNat - 48)) 0

/-- Parse a string under the pattern `%Y-%m-%d`; `none` means
`strptime` raises `ValueError`. -/
def parseYMD (s : String) : Option (Nat × Nat × Nat) :=
  match splitDash s.data with
  | [ys, ms, ds] =>
    if digitGroup 4 ys && digitGroup 2 ms && digitGroup 2 ds then
      let y := digitsToNat ys
      let m := digitsToNat ms
      let d := digitsToNat ds
      if 1 ≤ y && 1 ≤ m && m ≤ 12 && 1 ≤ d && d ≤ daysInMonth y m then
        some (y, m, d)
      else none
    else none
  | _ => none

/-- `strptime(value, fmt)` success test.  Only the one format string
that appears in the rule catalog, `%Y-%m-%d`, is modelled. -/
def strptimeOk (fmt s : String) : Option (Nat × Nat × Nat) :=
  if fmt == "%Y-%m-%d" then parseYMD s else none

/-- Lexicographic strict order on (year, month, day), i.e. Python's
`date` comparison. -/
def dateLt (a b : Nat × Nat × Nat) : Bool :=
  a.1 < b.1 || (a.1 == b.1 && (a.2.1 < b.2.1 || (a.2.1 == b.2.1 && a.2.2 < b.2.2)))

/-! ### The three regular expressions of the rule catalog -/

/-- The fixed regex patterns used in `field_rules`. -/
inductive RegexPat where
  | patientId   -- ^P\d{8}$
  | dosage      -- ^\d+\.?\d*[a-zA-Z]+$
  | fileName    -- ^[\w\-. ]+$  (\w restricted to ASCII here)
deriving DecidableEq, Repr

def isAsciiLetter (c : Char) : Bool :=
  ('a' ≤ c && c ≤ 'z') || ('A' ≤ c && c ≤ 'Z')

/-- Matcher for `^\d+\.?\d*[a-zA-Z]+$` on a character list. -/
def dosageChars (cs : List Char) : Bool :=
  let rest1 := cs.dropWhile Char.isDigit
  if cs.takeWhile Char.isDigit == [] then false
  else
    let rest2 := match rest1 with
      | '.' :: t => t.dropWhile Char.isDigit
      | t => t
    !(rest2 == []) && rest2.all isAsciiLetter

/-- `re.match(pattern, s)` (with `$` in every pattern, so a full match). -/
def reMatch : RegexPat → String → Bool
  | .patientId, s =>
    s.length == 9 && s.data.head? == some 'P' && (s.data.drop 1).all Char.isDigit
  | .dosage, s => dosageChars s.data
  | .fileName, s =>
    !(s == "") && s.data.all (fun c => c.isAlphanum || c == '_' || c == '-' || c == '.' || c == ' ')

/-! ### Rules and the rule catalog -/

/-- The custom validators injected into the catalog; the only one is
`_validate_visit_date`. -/
inductive CustomV where
  | visitDate
deriving DecidableEq, Repr

/-- One entry of a `field_rules` list, as a closed sum: the tagged dicts
of the source carry exactly these payloads. -/
inductive Rule where
  | required (message : String)
  | format (fmt message : String)
  | range (minLength maxLength : Option Nat) (minV maxV : Option Int) (message : String)
  | enum (values : List String) (message : String)
  | regex (pattern : RegexPat) (message : String)
  | custom (validator : CustomV) (message : String)
deriving DecidableEq, Repr

/-- `MedicalRecordValidator.field_rules`, in registration order. -/
def field_rules : String → Option (List Rule)
  | "patient_id" => some
      [.required "患者ID不能为空",
       .regex .patientId "患者ID格式不正确(P+8位数字)"]
  | "record_type" => some
      [.required "病历类型不能为空",
       .enum ["门诊", "住院", "急诊", "体检"] "无效的病历类型"]
  | "visit_date" => some
      [.required "就诊日期不能为空",
       .format "%Y-%m-%d" "日期格式不正确(YYYY-MM-DD)",
       .custom .visitDate "就诊日期不能晚于今天"]
  | "department" => some [.required "科室不能为空"]
  | "doctor" => some [.required "医生不能为空"]
  | "chief_complaint" => some
      [.required "主诉不能为空",
       .range (some 2) (some 500) none none "主诉长度必须在2-500字之间"]
  | "present_illness" => some
      [.required "现病史不能为空",
       .range (some 10) (some 2000) none none "现病史长度必须在10-2000字之间"]
  | "diagnosis" => some [.required "诊断不能为空"]
  | "exam_type" => some [.required "检查类型不能为空"]
  | "exam_date" => some
      [.required "检查日期不能为空",
       .format "%Y-%m-%d" "日期格式不正确(YYYY-MM-DD)"]
  | "exam_result" => some [.required "检查结果不能为空"]
  | "medication_name" => some [.required "药品名称不能为空"]
  | "dosage" => some
      [.required "用药剂量不能为空",
       .regex .dosage "剂量格式不正确(如: 0.3g)"]
  | "frequency" => some [.required "用药频次不能为空"]
  | "duration" => some [.required "用药天数不能为空"]
  | "operation_name" => some [.required "手术名称不能为空"]
  | "operation_date" => some
      [.required "手术日期不能为空",
       .format "%Y-%m-%d" "日期格式不正确(YYYY-MM-DD)"]
  | "surgeon" => some [.required "主刀医生不能为空"]
  | "operation_level" => some
      [.required "手术等级不能为空",
       .enum ["一级", "二级", "三级", "四级"] "无效的手术等级"]
  | "file_name" => some
      [.required "文件名不能为空",
       .regex .fileName "文件名包含非法字符"]
  | "file_type" => some
      [.required "文件类型不能为空",
       .enum ["application/pdf", "image/jpeg", "image/png", "application/msword",
              "application/vnd.openxmlformats-officedocument.wordprocessingml.document"]
             "不支持的文件类型"]
  | "file_size" => some
      [.range none none (some 0) (some (100*1024*1024)) "文件大小超过限制(100MB)"]
  | _ => none

/-- An error before the final stamping loop writes the field name. -/
def verr (message code : String) : ValidationError :=
  { field := "", message := message, code := code }

/-- `_validate_required`: fires when the value is falsy and not equal
to `0`. -/
def validate_required (v : Value) (message : String) : List ValidationError :=
  if !(truthy v) && !(v == .int 0) then [verr message "required"] else []

/-- `_validate_format`: a truthy string must `strptime`-parse;
`ValueError` is caught and turned into a violation, but a truthy
non-string raises `TypeError` out of the (ValueError-only) handler. -/
def validate_format (v : Value) (fmt message : String) : Except PyErr (List ValidationError) :=
  match v with
  | .str s =>
    if s == "" then .ok []
    else if (strptimeOk fmt s).isSome then .ok []
    else .ok [verr message "format"]
  | .int n => if n == 0 then .ok [] else .error .typeError
  | .vnone => .ok []

/-- The `"min" in rule` clause of `_validate_range`: Python `value <
min` raises `TypeError` when the value is not a number. -/
def rangeMin (v : Value) (minV : Option Int) (message : String) :
    Except PyErr (List ValidationError) :=
  match minV with
  | none => .ok []
  | some m => match v with
    | .int n => .ok (if n < m then [verr message "range"] else [])
    | _ => .error .typeError

/-- The `"max" in rule` clause of `_validate_range`. -/
def rangeMax (v : Value) (maxV : Option Int) (message : String) :
    Except PyErr (List ValidationError) :=
  match maxV with
  | none => .ok []
  | some m => match v with
    | .int n => .ok (if n > m then [verr message "range"] else [])
    | _ => .error .typeError

/-- `_validate_range`: each bound present is checked independently (and
can each independently add a violation); the checks run in source
order, so a `TypeError` from the `min` comparison wins. -/
def validate_range (v : Value) (minLength maxLength : Option Nat)
    (minV maxV : Option Int) (message : String) : Except PyErr (List ValidationError) :=
  let e1 := match minLength with
    | some n => if (pyStr v).length < n then [verr message "range"] else []
    | none => []
  let e2 := match maxLength with
    | some n => if (pyStr v).length > n then [verr message "range"] else []
    | none => []
  match rangeMin v minV message with
  | .error e => .error e
  | .ok e3 =>
    match rangeMax v maxV message with
    | .error e => .error e
    | .ok e4 => .ok (e1 ++ e2 ++ e3 ++ e4)

/-- `_validate_enum`: `value not in values`; a non-string is never a
member of the (all-string) allowed lists. -/
def validate_enum (v : Value) (values : List String) (message : String) : List ValidationError :=
  match v with
  | .str s => if values.contains s then [] else [verr message "enum"]
  | _ => [verr message "enum"]

/-- `_validate_regex`: `re.match(pattern, value)`; a non-string value
raises `TypeError`. -/
def validate_regex (v : Value) (pat : RegexPat) (message : String) : Except PyErr (List ValidationError) :=
  match v with
  | .str s => .ok (if reMatch pat s then [] else [verr message "regex"])
  | _ => .error .typeError

/-- `_validate_visit_date`: parses unconditionally (no try/except), so
an unparseable string raises `ValueError` and a non-string raises
`TypeError`; a parsed date later than `today` is a `custom` violation. -/
def validate_visit_date (today : Nat × Nat × Nat) (v : Value) : Except PyErr (List ValidationError) :=
  match v with
  | .str s =>
    match parseYMD s with
    | some d =>
      .ok (if dateLt today d then [verr "就诊日期不能晚于今天" "custom"] else [])
    | none => .error (.valueError "time data does not match format %Y-%m-%d")
  | _ => .error .typeError

/-- Dispatch one rule, as the `if/elif` chain in `validate_field`. -/
def runRule (today : Nat × Nat × Nat) (v : Value) : Rule → Except PyErr (List ValidationError)
  | .required message => .ok (validate_required v message)
  | .format fmt message => validate_format v fmt message
  | .range a b c d message => validate_range v a b c d message
  | .enum values message => .ok (validate_enum v values message)
  | .regex pat message => validate_regex v pat message
  | .custom .visitDate _ => validate_visit_date today v

/-- Is this rule a `Required` rule? (the break test in the loop). -/
def isRequiredRule : Rule → Bool
  | .required _ => true
  | _ => false

/-- The rule loop of `validate_field`: accumulate violations in order
and break as soon as a `Required` rule has fired. -/
def validate_field_loop (today : Nat × Nat × Nat) (v : Value) :
    List Rule → List ValidationError → Except PyErr (List ValidationError)
  | [], errs => .ok errs
  | r :: rs, errs =>
    match runRule today v r with
    | .error e => .error e
    | .ok new =>
      let errs' := errs ++ new
      if isRequiredRule r && !errs'.isEmpty then .ok errs'
      else validate_field_loop today v rs errs'

/-- The final loop `for error in errors: error.field = field`. -/
def stampField (field : String) (e : ValidationError) : ValidationError :=
  { e with field := field }

/-- `MedicalRecordValidator.validate_field`.  `today` is the ambient
`datetime.now().date()` read by the visit-date custom validator. -/
def validate_field (today : Nat × Nat × Nat) (field : String) (v : Value) :
    Except PyErr (List ValidationError) :=
  match field_rules field with
  | none => .ok []
  | some rules => (validate_field_loop today v rules []).map (List.map (stampField field))

/-- `MedicalRecordValidator.validate_record`: run `validate_field` on
every key/value pair actually present in the input map. -/
def validate_record_go (today : Nat × Nat × Nat) :
    List (String × Value) → List ValidationError → Except PyErr (List ValidationError)
  | [], acc => .ok acc
  | (f, v) :: rest, acc =>
    match validate_field today f v with
    | .error e => .error e
    | .ok es => validate_record_go today rest (acc ++ es)

def validate_record (today : Nat × Nat × Nat) (m : List (String × Value)) :
    Except PyErr (List ValidationError) :=
  validate_record_go today m []

/-- Python `d[k]` lookup on an insertion-ordered assoc list. -/
def pyGet (d : List (String × Value)) (k : String) : Option Value :=
  (d.find? (fun p => p.1 == k)).map (fun p => p.2)

/-- The shared shape of the per-child validators: walk the fixed
`required_fields` list and validate only the keys present in the map. -/
def validate_children_go (today : Nat × Nat × Nat) (m : List (String × Value)) :
    List String → List ValidationError → Except PyErr (List ValidationError)
  | [], acc => .ok acc
  | f :: rest, acc =>
    if (m.map Prod.fst).contains f then
      match validate_field today f ((pyGet m f).getD .vnone) with
      | .error e => .error e
      | .ok es => validate_children_go today m rest (acc ++ es)
    else validate_children_go today m rest acc

/-- `MedicalRecordValidator.validate_prescription`. -/
def validate_prescription (today : Nat × Nat × Nat) (m : List (String × Value)) :
    Except PyErr (List ValidationError) :=
  validate_children_go today m ["medication_name", "dosage", "frequency", "duration"] []

/-- `MedicalRecordValidator.validate_examination`. -/
def validate_examination (today : Nat × Nat × Nat) (m : List (String × Value)) :
    Except PyErr (List ValidationError) :=
  validate_children_go today m ["exam_type", "exam_date", "exam_result"] []

/-! ## MedicalRecordAgent (src/agents/new_agents/medical_record_agent.py)

The sqlite store is modelled by `AgentState`: one list of rows per
table, in insertion (rowid) order.  A row, like a caller-supplied field
map, is a `Pydict`: an association list in insertion order.  A call
that raises an exception is `Except.error`; the source commits the
connection only at the end of each operation, so a raise leaves the
store unchanged — exactly what the `Except` result models. -/

abbrev Pydict := List (String × Value)

/-- Python `d[k] = v` on an insertion-ordered assoc list: overwrite in
place (keeping the key's position) or append. -/
def assocSet (d : List (String × α)) (k : String) (v : α) : List (String × α) :=
  if d.any (fun p => p.1 == k) then
    d.map (fun p => if p.1 == k then (k, v) else p)
  else d ++ [(k, v)]

/-- Python `dict.update` with a literal dict (entries left-to-right). -/
def assocUpdate (d kvs : List (String × α)) : List (String × α) :=
  kvs.foldl (fun a p => assocSet a p.1 p.2) d

def pyUpdate (d kvs : Pydict) : Pydict := assocUpdate d kvs

/-- The wall clock as `datetime.now()` exposes it to this code:
calendar fields down to seconds (`strftime` never sees more). -/
structure Timestamp where
  year : Nat
  month : Nat
  day : Nat
  hour : Nat
  minute : Nat
  second : Nat
deriving DecidableEq, Repr

/-- The ranges `datetime` guarantees (year is 4-digit in this system's
lifetime, which `%Y` renders without padding issues). -/
def tsWF (t : Timestamp) : Prop :=
  1000 ≤ t.year ∧ t.year ≤ 9999 ∧ 1 ≤ t.month ∧ t.month ≤ 12 ∧ 1 ≤ t.day ∧
    t.day ≤ 31 ∧ t.hour ≤ 23 ∧ t.minute ≤ 59 ∧ t.second ≤ 59

instance (t : Timestamp) : Decidable (tsWF t) := by unfold tsWF; infer_instance

/-- Two-digit zero-padded field (`%m%d%H%M%S`), valid on `n ≤ 99`. -/
def pad2 (n : Nat) : List Char := [Nat.digitChar (n / 10), Nat.digitChar (n % 10)]

/-- Four-digit zero-padded year (`%Y`), valid on `n ≤ 9999`. -/
def pad4 (n : Nat) : List Char :=
  [Nat.digitChar (n / 1000), Nat.digitChar (n / 100 % 10),
   Nat.digitChar (n / 10 % 10), Nat.digitChar (n % 10)]

/-- `now.strftime("%Y%m%d%H%M%S")`. -/
def fmt14 (t : Timestamp) : String :=
  ⟨pad4 t.year ++ pad2 t.month ++ pad2 t.day ++ pad2 t.hour ++ pad2 t.minute ++ pad2 t.second⟩

/-- `now.strftime("%Y-%m-%d %H:%M:%S")`. -/
def fmtDisp (t : Timestamp) : String :=
  ⟨pad4 t.year ++ '-' :: pad2 t.month ++ '-' :: pad2 t.day ++
   ' ' :: pad2 t.hour ++ ':' :: pad2 t.minute ++ ':' :: pad2 t.second⟩

/-! ### json.dumps (ensure_ascii=False) for the dict shapes this code
serializes -/

/-- String escaping of `json.dumps`, for the characters that occur in
this system's keys and values. -/
def jsonEscape (s : String) : String :=
  ⟨s.data.foldr (fun c acc =>
    if c = '"' then '\\' :: '"' :: acc
    else if c = '\\' then '\\' :: '\\' :: acc
    else c :: acc) []⟩

def jsonOfValue : Value → String
  | .str s => "\"" ++ jsonEscape s ++ "\""
  | .int n => toString n
  | .vnone => "null"

def jsonOfEntries (es : List String) : String :=
  "\x7b" ++ String.intercalate ", " es ++ "\x7d"

def jsonOfDict (d : Pydict) : String :=
  jsonOfEntries (d.map (fun p => "\"" ++ jsonEscape p.1 ++ "\": " ++ jsonOfValue p.2))

def jsonOfStrList (l : List String) : String :=
  "[" ++ String.intercalate ", " (l.map (fun s => "\"" ++ jsonEscape s ++ "\"")) ++ "]"

/-- A row of `record_versions`; `content` and `changed_fields` hold the
TEXT produced by `json.dumps`. -/
structure VersionRow where
  version_id : String
  record_id : String
  version : Nat
  content : String
  changed_fields : String
  changed_at : String
  changed_by : String
deriving DecidableEq, Repr

/-- The sqlite database: one list of rows per table, in rowid order. -/
structure AgentState where
  medical_records : List Pydict
  record_versions : List VersionRow
  examination_results : List Pydict
  prescriptions : List Pydict
  operation_records : List Pydict
  record_attachments : List Pydict
deriving DecidableEq, Repr

/-- Columns of `medical_records` (schema order, src/scripts/init_database.py). -/
def recordCols : List String :=
  ["record_id", "patient_id", "record_type", "visit_date", "department", "doctor",
   "chief_complaint", "present_illness", "past_history", "allergic_history",
   "physical_examination", "diagnosis", "treatment_plan", "record_status",
   "created_at", "updated_at", "created_by", "updated_by"]

/-- The NOT NULL columns of `medical_records`. -/
def recordNotNull : List String :=
  ["record_id", "patient_id", "record_type", "visit_date", "department", "doctor",
   "diagnosis", "record_status", "created_at", "updated_at", "created_by", "updated_by"]

/-- The stored row for an INSERT of `d`: every table column, NULL
(`vnone`) for columns the INSERT did not name (`SELECT *` then returns
all of them). -/
def mkRow (cols : List String) (d : Pydict) : Pydict :=
  cols.map (fun c => (c, (pyGet d c).getD .vnone))

/-- NOT NULL constraints of an INSERT. -/
def notNullOk (cols : List String) (d : Pydict) : Bool :=
  cols.all (fun c => match pyGet d c with
    | some v => !(v == .vnone)
    | none => false)

/-- Every column named by the dict exists in the table (the INSERT and
UPDATE SQL name the dict's keys verbatim). -/
def colsOk (cols : List String) (d : Pydict) : Bool :=
  d.all (fun p => cols.contains p.1)

/-- The audit/status entries `create_record` merges into the caller's
dict via `record_data.update`. -/
def createStamps (rid disp created_by : String) : Pydict :=
  [("record_id", .str rid), ("created_at", .str disp), ("updated_at", .str disp),
   ("created_by", .str created_by), ("updated_by", .str created_by),
   ("record_status", .str "草稿")]

/-- The two INSERTs of `create_record` succeed: known columns only, NOT
NULL satisfied, both primary keys fresh. -/
def createGuard (st : AgentState) (stamped : Pydict) (rid vid : String) : Bool :=
  colsOk recordCols stamped && notNullOk recordNotNull stamped
    && !(st.medical_records.any (fun r => pyGet r "record_id" == some (.str rid)))
    && !(st.record_versions.any (fun v => v.version_id == vid))

/-- The `version_data` dict of `create_record`. -/
def createVersionRow (stamped : Pydict) (rid vid : String) (now : Timestamp)
    (created_by : String) : VersionRow :=
  { version_id := vid, record_id := rid, version := 1,
    content := jsonOfDict stamped,
    changed_fields := jsonOfStrList (stamped.map Prod.fst),
    changed_at := fmtDisp now, changed_by := created_by }

/-- The committed effect of `create_record`: one row in
`medical_records`, one in `record_versions`, in one transaction. -/
def createApply (st : AgentState) (stamped : Pydict) (vrow : VersionRow) : AgentState :=
  { st with
    medical_records := st.medical_records ++ [mkRow recordCols stamped],
    record_versions := st.record_versions ++ [vrow] }

/-- `MedicalRecordAgent.create_record`.  `now` is the wall clock at the
call, `vid` the `uuid4` drawn for version 1.  The first component of
the result is the caller's `record_data` dict as the call leaves it —
the source mutates it in place before inserting.  A failed INSERT
(unknown column, NOT NULL or PRIMARY KEY violation) raises before the
commit, so the error case carries no state. -/
def create_record (st : AgentState) (record_data : Pydict) (created_by : String)
    (now : Timestamp) (vid : String) : Pydict × Except PyErr (String × AgentState) :=
  let rid := "R" ++ fmt14 now
  let stamped := pyUpdate record_data (createStamps rid (fmtDisp now) created_by)
  (stamped,
    if createGuard st stamped rid vid then
      .ok (rid, createApply st stamped (createVersionRow stamped rid vid now created_by))
    else .error .sqlError)

/-- The dict `get_record` returns: the record row plus the four child
collections and, when requested, the version history. -/
structure RecordView where
  fields : Pydict
  examinations : List Pydict
  prescriptions : List Pydict
  operations : List Pydict
  attachments : List Pydict
  versions : Option (List VersionRow)
deriving DecidableEq, Repr

/-- Stable insertion sort under a boolean `le` — the model of ORDER BY. -/
def insertLe (le : α → α → Bool) (x : α) : List α → List α
  | [] => [x]
  | y :: ys => if le x y then x :: y :: ys else y :: insertLe le x ys

def sortLe (le : α → α → Bool) : List α → List α
  | [] => []
  | x :: xs => insertLe le x (sortLe le xs)

def rowHasId (rid : String) (r : Pydict) : Bool :=
  pyGet r "record_id" == some (.str rid)

/-- `MedicalRecordAgent.get_record`. -/
def get_record (st : AgentState) (record_id : String) (include_versions : Bool) :
    Except PyErr RecordView :=
  match st.medical_records.find? (rowHasId record_id) with
  | none => .error (.valueError ("病历记录不存在: " ++ record_id))
  | some row => .ok
    { fields := row
      examinations := st.examination_results.filter (rowHasId record_id)
      prescriptions := st.prescriptions.filter (rowHasId record_id)
      operations := st.operation_records.filter (rowHasId record_id)
      attachments := st.record_attachments.filter (rowHasId record_id)
      versions := if include_versions then
          some (sortLe (fun a b => Nat.ble a.version b.version)
            (st.record_versions.filter (fun v => v.record_id == record_id)))
        else none }

/-- A value of the dict `get_record` builds: a scalar column value, a
child-row array, or the version-row array. -/
inductive JValue where
  | prim : Value → JValue
  | rows : List Pydict → JValue
  | vrows : List VersionRow → JValue

/-- A `record_versions` row as the dict `get_record` would return it. -/
def versionRowDict (v : VersionRow) : Pydict :=
  [("version_id", .str v.version_id), ("record_id", .str v.record_id),
   ("version", .int v.version), ("content", .str v.content),
   ("changed_fields", .str v.changed_fields), ("changed_at", .str v.changed_at),
   ("changed_by", .str v.changed_by)]

def jsonOfJValue : JValue → String
  | .prim v => jsonOfValue v
  | .rows rs => "[" ++ String.intercalate ", " (rs.map jsonOfDict) ++ "]"
  | .vrows vs =>
    "[" ++ String.intercalate ", " (vs.map (fun v => jsonOfDict (versionRowDict v))) ++ "]"

abbrev JDict := List (String × JValue)

def jsonOfJDict (d : JDict) : String :=
  jsonOfEntries (d.map (fun p => "\"" ++ jsonEscape p.1 ++ "\": " ++ jsonOfJValue p.2))

/-- The dict `get_record` hands back, in the key order the source
builds it: row columns, then the four child keys, then `versions`. -/
def viewToJDict (v : RecordView) : JDict :=
  v.fields.map (fun p => (p.1, JValue.prim p.2))
  ++ [("examinations", JValue.rows v.examinations),
      ("prescriptions", JValue.rows v.prescriptions),
      ("operations", JValue.rows v.operations),
      ("attachments", JValue.rows v.attachments)]
  ++ (match v.versions with
      | some vs => [("versions", JValue.vrows vs)]
      | none => [])

/-- The stamp entries `update_record` merges into the caller's dict. -/
def updateStamps (disp updated_by : String) : Pydict :=
  [("updated_at", .str disp), ("updated_by", .str updated_by)]

/-- The UPDATE and the version INSERT of `update_record` succeed:
known columns, NOT NULL respected, version primary key fresh. -/
def updateGuard (st : AgentState) (upd : Pydict) (vid : String) : Bool :=
  colsOk recordCols upd
    && upd.all (fun p => !(recordNotNull.contains p.1 && p.2 == .vnone))
    && !(st.record_versions.any (fun v => v.version_id == vid))

/-- The `version_data` dict of `update_record`: its number is
`len(current_record.get("versions", [])) + 1` — and `current_record`
comes from a `get_record` call made *without* `include_versions`, so
the "versions" key is always absent — and its content is
`json.dumps({**current_record, **update_data})`. -/
def updateVersionRow (view : RecordView) (record_id : String) (upd : Pydict)
    (updated_by : String) (now : Timestamp) (vid : String) : VersionRow :=
  { version_id := vid, record_id := record_id,
    version := (view.versions.getD []).length + 1,
    content := jsonOfJDict
      (assocUpdate (viewToJDict view) (upd.map (fun p => (p.1, JValue.prim p.2)))),
    changed_fields := jsonOfStrList (upd.map Prod.fst),
    changed_at := fmtDisp now, changed_by := updated_by }

/-- The committed effect of `update_record`: the matching row merged
with the update dict, one appended version row. -/
def updateApply (st : AgentState) (record_id : String) (upd : Pydict)
    (vrow : VersionRow) : AgentState :=
  { st with
    medical_records := st.medical_records.map
      (fun r => if rowHasId record_id r then pyUpdate r upd else r),
    record_versions := st.record_versions ++ [vrow] }

/-- `MedicalRecordAgent.update_record`.  First component: the caller's
`update_data` dict as the call leaves it (mutated only after
`get_record` succeeded). -/
def update_record (st : AgentState) (record_id : String) (update_data : Pydict)
    (updated_by : String) (now : Timestamp) (vid : String) :
    Pydict × Except PyErr AgentState :=
  match get_record st record_id false with
  | .error e => (update_data, .error e)
  | .ok view =>
    let upd := pyUpdate update_data (updateStamps (fmtDisp now) updated_by)
    (upd,
      if updateGuard st upd vid then
        .ok (updateApply st record_id upd (updateVersionRow view record_id upd updated_by now vid))
      else .error .sqlError)

/-- The store after a call whose exception the caller absorbs: on a
raise nothing was committed, so the old store survives. -/
def update_record_run (st : AgentState) (record_id : String) (update_data : Pydict)
    (updated_by : String) (now : Timestamp) (vid : String) : AgentState :=
  match (update_record st record_id update_data updated_by now vid).2 with
  | .ok st' => st'
  | .error _ => st

/-- Columns of `examination_results` (schema order). -/
def examCols : List String :=
  ["exam_id", "record_id", "exam_type", "exam_date", "exam_department", "exam_doctor",
   "exam_result", "exam_conclusion", "notes", "created_at", "created_by"]

def examNotNull : List String :=
  ["exam_id", "record_id", "exam_type", "exam_date", "exam_department", "exam_doctor",
   "exam_result", "created_at", "created_by"]

/-- `MedicalRecordAgent.add_examination`: writes `exam_id`,
`created_at`, `created_by` into the caller's dict (in place, before the
INSERT), then inserts. -/
def add_examination (st : AgentState) (exam_data : Pydict) (created_by : String)
    (now : Timestamp) : Pydict × Except PyErr AgentState :=
  let eid := "E" ++ fmt14 now
  let stamped := assocSet (assocSet (assocSet exam_data "exam_id" (.str eid))
      "created_at" (.str (fmtDisp now))) "created_by" (.str created_by)
  (stamped,
    if colsOk examCols stamped && notNullOk examNotNull stamped
        && !(st.examination_results.any (fun r => pyGet r "exam_id" == some (.str eid))) then
      .ok { st with examination_results := st.examination_results ++ [mkRow examCols stamped] }
    else .error .sqlError)

/-! ### search_records -/

/-- The `search_params` dict; `none` = key absent.  The `getD` calls in
the functions below are the source's `.get(key, default)`. -/
structure SearchParams where
  department : Option String := none
  date_range : Option (String × String) := none
  diagnosis : Option String := none
  sort_by : Option String := none
  sort_order : Option String := none
  page : Option Nat := none
  page_size : Option Nat := none

/-- Binary (memcmp-on-UTF-8) string order, sqlite's default TEXT
collation; codepoint order coincides with byte order under UTF-8. -/
def strLeChars : List Char → List Char → Bool
  | [], _ => true
  | _ :: _, [] => false
  | a :: as, b :: bs =>
    if a.toNat < b.toNat then true
    else if b.toNat < a.toNat then false
    else strLeChars as bs

def strLe (a b : String) : Bool := strLeChars a.data b.data

/-- sqlite `LIKE '%pat%'`: substring containment, case-insensitive on
ASCII letters. -/
def asciiLower (c : Char) : Char :=
  if 'A' ≤ c && c ≤ 'Z' then Char.ofNat (c.toNat + 32) else c

def isPrefixChars : List Char → List Char → Bool
  | [], _ => true
  | _ :: _, [] => false
  | a :: as, b :: bs => a == b && isPrefixChars as bs

def isInfixChars (pat : List Char) : List Char → Bool
  | [] => pat == []
  | c :: rest => isPrefixChars pat (c :: rest) || isInfixChars pat rest

def likeContains (hay pat : String) : Bool :=
  isInfixChars (pat.data.map asciiLower) (hay.data.map asciiLower)

/-- The WHERE clause on one row: department equality, visit-date
BETWEEN, diagnosis LIKE, ANDed; a NULL (or non-TEXT) stored value
satisfies none of these TEXT comparisons. -/
def matchesFilters (p : SearchParams) (r : Pydict) : Bool :=
  (match p.department with
   | some dep => pyGet r "department" == some (.str dep)
   | none => true)
  && (match p.date_range with
   | some (s, e) => match pyGet r "visit_date" with
     | some (.str v) => strLe s v && strLe v e
     | _ => false
   | none => true)
  && (match p.diagnosis with
   | some pat => match pyGet r "diagnosis" with
     | some (.str v) => likeContains v pat
     | _ => false
   | none => true)

/-- sqlite ORDER BY comparison: NULL sorts before numbers, numbers
before text; numbers by value, text by binary collation. -/
def sqlLe : Value → Value → Bool
  | .vnone, _ => true
  | _, .vnone => false
  | .int a, .int b => decide (a ≤ b)
  | .int _, .str _ => true
  | .str _, .int _ => false
  | .str a, .str b => strLe a b

def sortKey (col : String) (r : Pydict) : Value := (pyGet r col).getD .vnone

/-- The filtered result in its ORDER BY order, before LIMIT/OFFSET
(default sort: `created_at`, descending). -/
def filteredSorted (st : AgentState) (p : SearchParams) : List Pydict :=
  let col := p.sort_by.getD "created_at"
  let le := if p.sort_order.getD "desc" == "desc"
    then (fun a b => sqlLe (sortKey col b) (sortKey col a))
    else (fun a b => sqlLe (sortKey col a) (sortKey col b))
  sortLe le (st.medical_records.filter (matchesFilters p))

/-- `MedicalRecordAgent.search_records`: WHERE, ORDER BY, then
`LIMIT page_size OFFSET (page-1)*page_size` (sqlite clamps a negative
OFFSET to 0, as truncated `Nat` subtraction does).  The ORDER BY column
and direction are spliced into the SQL verbatim, so an unknown column
or direction is a sqlite error. -/
def search_records (st : AgentState) (p : SearchParams) : Except PyErr (List Pydict) :=
  if recordCols.contains (p.sort_by.getD "created_at")
      && ["asc", "desc"].contains (p.sort_order.getD "desc") then
    let page := p.page.getD 1
    let page_size := p.page_size.getD 10
    .ok (((filteredSorted st p).drop ((page - 1) * page_size)).take page_size)
  else .error .sqlError

/-- Does a `validate_field` outcome contain a violation whose `code` is
the string "format"? -/
def hasFormatCoded : Except PyErr (List ValidationError) → Bool
  | .ok errs => errs.any (fun e => e.code == "format")
  | .error _ => false

/-! ### Concrete fixtures: one record created and then updated once -/

def emptyState : AgentState := ⟨[], [], [], [], [], []⟩

def fixTs0 : Timestamp := ⟨2024, 6, 1, 10, 20, 30⟩

def fixTs1 : Timestamp := ⟨2024, 6, 1, 10, 20, 31⟩

def fixData : Pydict :=
  [("patient_id", .str "P12345678"), ("record_type", .str "门诊"),
   ("visit_date", .str "2024-06-01"), ("department", .str "内科"),
   ("doctor", .str "D1"), ("diagnosis", .str "X")]

def fixRid : String := "R20240601102030"

/-- The store after `create_record(fixData, "u1")` at `fixTs0`. -/
def fixState : AgentState :=
  (((create_record emptyState fixData "u1" fixTs0 "vid-1").2.toOption).getD ("", emptyState)).2

def fixUpd : Pydict := [("diagnosis", Value.str "Y")]

/-- The store after one further `update_record({"diagnosis": "Y"}, "u2")`
at `fixTs1`. -/
def fixState2 : AgentState :=
  ((update_record fixState fixRid fixUpd "u2" fixTs1 "vid-2").2.toOption).getD fixState

def fixExam : Pydict :=
  [("record_id", .str fixRid), ("exam_type", .str "CT"),
   ("exam_date", .str "2024-06-01"), ("exam_department", .str "放射科"),
   ("exam_doctor", .str "D2"), ("exam_result", .str "正常")]

/-! ### Fixtures for search pagination -/

def c8row1 : Pydict :=
  [("record_id", .str "R20240101000001"), ("department", .str "内科"),
   ("created_at", .str "2024-01-01 00:00:01")]

def c8row2 : Pydict :=
  [("record_id", .str "R20240101000002"), ("department", .str "内科"),
   ("created_at", .str "2024-01-01 00:00:02")]

def c8row3 : Pydict :=
  [("record_id", .str "R20240101000003"), ("department", .str "内科"),
   ("created_at", .str "2024-01-01 00:00:03")]

def c8State : AgentState := ⟨[c8row1, c8row2, c8row3], [], [], [], [], []⟩

def c8Params : SearchParams :=
  { department := some "内科", page := some 2, page_size := some 2 }

/-- What a successful `create_record` call leaves behind (the C4
property): the returned identifier is `R` + 14 digits and was issued to
no existing record; `get_record` on it succeeds, its field row agrees
with the caller's input wherever the call did not stamp over it, carries
the audit stamps and status = draft; and the version appended in the
same transaction is number 1 with content `json.dumps` of the full
stamped field set. -/
def CreateRecordPost (st : AgentState) (d : Pydict) (cb : String)
    (now : Timestamp) (vid : String) : Prop :=
  ∃ st' view,
    (create_record st d cb now vid).2 = .ok ("R" ++ fmt14 now, st') ∧
    ("R" ++ fmt14 now).length = 15 ∧
    ("R" ++ fmt14 now).data.head? = some 'R' ∧
    (("R" ++ fmt14 now).data.drop 1).all Char.isDigit = true ∧
    (∀ r ∈ st.medical_records, pyGet r "record_id" ≠ some (.str ("R" ++ fmt14 now))) ∧
    get_record st' ("R" ++ fmt14 now) false = .ok view ∧
    view.fields =
      mkRow recordCols (pyUpdate d (createStamps ("R" ++ fmt14 now) (fmtDisp now) cb)) ∧
    (∀ k v, pyGet (pyUpdate d (createStamps ("R" ++ fmt14 now) (fmtDisp now) cb)) k = some v →
      pyGet view.fields k = some v) ∧
    (∀ k, k ∉ ["record_id", "created_at", "updated_at", "created_by", "updated_by",
        "record_status"] →
      pyGet (pyUpdate d (createStamps ("R" ++ fmt14 now) (fmtDisp now) cb)) k = pyGet d k) ∧
    pyGet view.fields "record_status" = some (.str "草稿") ∧
    pyGet view.fields "created_at" = some (.str (fmtDisp now)) ∧
    pyGet view.fields "updated_at" = some (.str (fmtDisp now)) ∧
    pyGet view.fields "created_by" = some (.str cb) ∧
    pyGet view.fields "updated_by" = some (.str cb) ∧
    st'.record_versions = st.record_versions ++
      [createVersionRow (pyUpdate d (createStamps ("R" ++ fmt14 now) (fmtDisp now) cb))
        ("R" ++ fmt14 now) vid now cb] ∧
    (createVersionRow (pyUpdate d (createStamps ("R" ++ fmt14 now) (fmtDisp now) cb))
      ("R" ++ fmt14 now) vid now cb).version = 1 ∧
    (createVersionRow (pyUpdate d (createStamps ("R" ++ fmt14 now) (fmtDisp now) cb))
      ("R" ++ fmt14 now) vid now cb).content =
        jsonOfDict (pyUpdate d (createStamps ("R" ++ fmt14 now) (fmtDisp now) cb))

/-! ## Helper lemmas on the dict model -/

theorem pyGet_nil (k : String) : pyGet [] k = none := rfl

theorem pyGet_cons (p : String × Value) (d : Pydict) (k : String) :
    pyGet (p :: d) k = if p.1 == k then some p.2 else pyGet d k := by
  by_cases h : p.1 == k <;> simp [pyGet, List.find?_cons, h]

theorem pyGet_append_of_none {d1 : Pydict} (d2 : Pydict) {k : String}
    (h : pyGet d1 k = none) : pyGet (d1 ++ d2) k = pyGet d2 k := by
  induction d1 with
  | nil => rfl
  | cons p t ih =>
    rw [pyGet_cons] at h
    by_cases hp : p.1 == k
    · rw [if_pos hp] at h
      exact absurd h (by simp)
    · rw [if_neg hp] at h
      rw [List.cons_append, pyGet_cons, if_neg hp]
      exact ih h

theorem pyGet_append_single_ne (d : Pydict) (k' k : String) (v : Value) (h : k' ≠ k) :
    pyGet (d ++ [(k', v)]) k = pyGet d k := by
  induction d with
  | nil =>
    rw [List.nil_append, pyGet_cons, if_neg (by simp [h])]
  | cons p t ih =>
    rw [List.cons_append, pyGet_cons, pyGet_cons]
    by_cases hk : p.1 == k
    · rw [if_pos hk, if_pos hk]
    · rw [if_neg hk, if_neg hk]
      exact ih

theorem pyGet_setMap_self (k : String) (v : Value) (d : Pydict) :
    pyGet (d.map (fun p => if p.1 == k then (k, v) else p)) k =
      if d.any (fun p => p.1 == k) then some v else none := by
  induction d with
  | nil => rfl
  | cons p t ih =>
    by_cases hp : p.1 == k
    · rw [List.map_cons, if_pos hp, pyGet_cons, List.any_cons, hp, Bool.true_or,
        if_pos (show ((k == k) = true) by simp), if_pos rfl]
    · have hpf : (p.1 == k) = false := by simpa using hp
      rw [List.map_cons, if_neg hp, pyGet_cons, if_neg hp, List.any_cons, hpf,
        Bool.false_or, ih]

theorem pyGet_setMap_ne (k' k : String) (v : Value) (h : k' ≠ k) (d : Pydict) :
    pyGet (d.map (fun p => if p.1 == k' then (k', v) else p)) k = pyGet d k := by
  induction d with
  | nil => rfl
  | cons p t ih =>
    by_cases hp : p.1 == k'
    · have hpe : p.1 = k' := by simpa using hp
      rw [List.map_cons, if_pos hp, pyGet_cons, pyGet_cons, hpe]
      rw [if_neg (by simp [h]), if_neg (by simp [h])]
      exact ih
    · rw [List.map_cons, if_neg hp, pyGet_cons, pyGet_cons]
      by_cases hk : p.1 == k
      · rw [if_pos hk, if_pos hk]
      · rw [if_neg hk, if_neg hk]
        exact ih

theorem pyGet_none_of_not_any {d : Pydict} {k : String}
    (h : d.any (fun p => p.1 == k) = false) : pyGet d k = none := by
  induction d with
  | nil => rfl
  | cons p t ih =>
    simp only [List.any_cons, Bool.or_eq_false_iff] at h
    rw [pyGet_cons, if_neg (by simp [h.1])]
    exact ih h.2

theorem pyGet_assocSet_self (d : Pydict) (k : String) (v : Value) :
    pyGet (assocSet d k v) k = some v := by
  unfold assocSet
  by_cases h : d.any (fun p => p.1 == k)
  · rw [if_pos h, pyGet_setMap_self, if_pos h]
  · have h' : d.any (fun p => p.1 == k) = false := by rwa [Bool.not_eq_true] at h
    rw [if_neg h, pyGet_append_of_none _ (pyGet_none_of_not_any h'), pyGet_cons,
      if_pos (by simp)]

theorem pyGet_assocSet_ne (d : Pydict) (k' k : String) (v : Value) (h : k' ≠ k) :
    pyGet (assocSet d k' v) k = pyGet d k := by
  unfold assocSet
  by_cases ha : d.any (fun p => p.1 == k')
  · rw [if_pos ha]
    exact pyGet_setMap_ne k' k v h d
  · rw [if_neg ha]
    exact pyGet_append_single_ne d k' k v h

theorem pyGet_eq_some_mem {d : Pydict} {k : String} {v : Value}
    (h : pyGet d k = some v) : (k, v) ∈ d := by
  induction d with
  | nil => simp [pyGet] at h
  | cons p t ih =>
    rw [pyGet_cons] at h
    by_cases hp : p.1 == k
    · rw [if_pos hp] at h
      have h1 : p.1 = k := by simpa using hp
      have h2 : p.2 = v := by simpa using h
      have : p = (k, v) := by
        cases p
        simp_all
      rw [this]
      exact List.mem_cons_self _ _
    · rw [if_neg hp] at h
      exact List.mem_cons_of_mem _ (ih h)

theorem assocSet_keys_mem (d : Pydict) (k : String) (v : Value)
    (h : k ∈ d.map Prod.fst) : (assocSet d k v).map Prod.fst = d.map Prod.fst := by
  have ha : d.any (fun p => p.1 == k) = true := by
    simp only [List.any_eq_true]
    obtain ⟨p, hp, he⟩ := List.mem_map.mp h
    exact ⟨p, hp, by simp [he]⟩
  unfold assocSet
  simp only [ha, if_true, List.map_map]
  apply List.map_congr_left
  intro p _
  by_cases hp : p.1 == k
  · have hpe : p.1 = k := by simpa using hp
    simp [hp, hpe]
  · have hpe : ¬p.1 = k := by simpa using hp
    simp [hpe]

theorem assocSet_keys_new (d : Pydict) (k : String) (v : Value)
    (h : k ∉ d.map Prod.fst) : (assocSet d k v).map Prod.fst = d.map Prod.fst ++ [k] := by
  have ha : d.any (fun p => p.1 == k) = false := by
    simp only [List.any_eq_false]
    intro p hp
    simp only [beq_iff_eq]
    intro he
    exact h (List.mem_map.mpr ⟨p, hp, he⟩)
  unfold assocSet
  simp [ha]

theorem pyGet_createStamps (d : Pydict) (rid disp cb : String) :
    pyGet (pyUpdate d (createStamps rid disp cb)) "record_id" = some (.str rid) ∧
    pyGet (pyUpdate d (createStamps rid disp cb)) "created_at" = some (.str disp) ∧
    pyGet (pyUpdate d (createStamps rid disp cb)) "updated_at" = some (.str disp) ∧
    pyGet (pyUpdate d (createStamps rid disp cb)) "created_by" = some (.str cb) ∧
    pyGet (pyUpdate d (createStamps rid disp cb)) "updated_by" = some (.str cb) ∧
    pyGet (pyUpdate d (createStamps rid disp cb)) "record_status" = some (.str "草稿") ∧
    ∀ k, k ∉ ["record_id", "created_at", "updated_at", "created_by", "updated_by",
        "record_status"] → pyGet (pyUpdate d (createStamps rid disp cb)) k = pyGet d k := by
  have e : pyUpdate d (createStamps rid disp cb) =
      assocSet (assocSet (assocSet (assocSet (assocSet (assocSet d
        "record_id" (.str rid)) "created_at" (.str disp)) "updated_at" (.str disp))
        "created_by" (.str cb)) "updated_by" (.str cb)) "record_status" (.str "草稿") := rfl
  rw [e]
  refine ⟨?_, ?_, ?_, ?_, ?_, ?_, ?_⟩
  · rw [pyGet_assocSet_ne _ _ _ _ (by decide), pyGet_assocSet_ne _ _ _ _ (by decide),
      pyGet_assocSet_ne _ _ _ _ (by decide), pyGet_assocSet_ne _ _ _ _ (by decide),
      pyGet_assocSet_ne _ _ _ _ (by decide), pyGet_assocSet_self]
  · rw [pyGet_assocSet_ne _ _ _ _ (by decide), pyGet_assocSet_ne _ _ _ _ (by decide),
      pyGet_assocSet_ne _ _ _ _ (by decide), pyGet_assocSet_ne _ _ _ _ (by decide),
      pyGet_assocSet_self]
  · rw [pyGet_assocSet_ne _ _ _ _ (by decide), pyGet_assocSet_ne _ _ _ _ (by decide),
      pyGet_assocSet_ne _ _ _ _ (by decide), pyGet_assocSet_self]
  · rw [pyGet_assocSet_ne _ _ _ _ (by decide), pyGet_assocSet_ne _ _ _ _ (by decide),
      pyGet_assocSet_self]
  · rw [pyGet_assocSet_ne _ _ _ _ (by decide), pyGet_assocSet_self]
  · rw [pyGet_assocSet_self]
  · intro k hk
    simp only [List.mem_cons, List.not_mem_nil, or_false, not_or] at hk
    obtain ⟨h1, h2, h3, h4, h5, h6⟩ := hk
    rw [pyGet_assocSet_ne _ _ _ _ (fun he => h6 he.symm),
      pyGet_assocSet_ne _ _ _ _ (fun he => h5 he.symm),
      pyGet_assocSet_ne _ _ _ _ (fun he => h4 he.symm),
      pyGet_assocSet_ne _ _ _ _ (fun he => h3 he.symm),
      pyGet_assocSet_ne _ _ _ _ (fun he => h2 he.symm),
      pyGet_assocSet_ne _ _ _ _ (fun he => h1 he.symm)]

theorem pyGet_updateStamps (d : Pydict) (disp ub : String) :
    pyGet (pyUpdate d (updateStamps disp ub)) "updated_at" = some (.str disp) ∧
    pyGet (pyUpdate d (updateStamps disp ub)) "updated_by" = some (.str ub) ∧
    ∀ k, k ≠ "updated_at" → k ≠ "updated_by" →
      pyGet (pyUpdate d (updateStamps disp ub)) k = pyGet d k := by
  have e : pyUpdate d (updateStamps disp ub) =
      assocSet (assocSet d "updated_at" (.str disp)) "updated_by" (.str ub) := rfl
  rw [e]
  refine ⟨?_, ?_, ?_⟩
  · rw [pyGet_assocSet_ne _ _ _ _ (by decide), pyGet_assocSet_self]
  · rw [pyGet_assocSet_self]
  · intro k h1 h2
    rw [pyGet_assocSet_ne _ _ _ _ (fun he => h2 he.symm),
      pyGet_assocSet_ne _ _ _ _ (fun he => h1 he.symm)]

theorem keys_updateStamps (d : Pydict) (disp ub : String)
    (h1 : "updated_at" ∉ d.map Prod.fst) (h2 : "updated_by" ∉ d.map Prod.fst) :
    (pyUpdate d (updateStamps disp ub)).map Prod.fst =
      d.map Prod.fst ++ ["updated_at", "updated_by"] := by
  have e : pyUpdate d (updateStamps disp ub) =
      assocSet (assocSet d "updated_at" (.str disp)) "updated_by" (.str ub) := rfl
  rw [e, assocSet_keys_new, assocSet_keys_new d _ _ h1]
  · simp
  · rw [assocSet_keys_new d _ _ h1]
    simp only [List.mem_append, List.mem_singleton]
    rintro (h | h)
    · exact h2 h
    · exact absurd h (by decide)

theorem notMem_append_single {a b : String} {l : List String}
    (h1 : a ∉ l) (h2 : a ≠ b) : a ∉ l ++ [b] := by
  simp only [List.mem_append, List.mem_singleton]
  rintro (h | h)
  · exact h1 h
  · exact h2 h

theorem keys_createStamps (d : Pydict) (rid disp cb : String)
    (h1 : "record_id" ∉ d.map Prod.fst) (h2 : "created_at" ∉ d.map Prod.fst)
    (h3 : "updated_at" ∉ d.map Prod.fst) (h4 : "created_by" ∉ d.map Prod.fst)
    (h5 : "updated_by" ∉ d.map Prod.fst) (h6 : "record_status" ∉ d.map Prod.fst) :
    (pyUpdate d (createStamps rid disp cb)).map Prod.fst =
      d.map Prod.fst ++ ["record_id", "created_at", "updated_at", "created_by",
        "updated_by", "record_status"] := by
  have e : pyUpdate d (createStamps rid disp cb) =
      assocSet (assocSet (assocSet (assocSet (assocSet (assocSet d
        "record_id" (.str rid)) "created_at" (.str disp)) "updated_at" (.str disp))
        "created_by" (.str cb)) "updated_by" (.str cb)) "record_status" (.str "草稿") := rfl
  have k1 := assocSet_keys_new d "record_id" (.str rid) h1
  have k2 := assocSet_keys_new _ "created_at" (Value.str disp)
    (by rw [k1]; exact notMem_append_single h2 (by decide))
  rw [k1] at k2
  have k3 := assocSet_keys_new _ "updated_at" (Value.str disp)
    (by rw [k2]; exact notMem_append_single (notMem_append_single h3 (by decide)) (by decide))
  rw [k2] at k3
  have k4 := assocSet_keys_new _ "created_by" (Value.str cb)
    (by rw [k3]; exact notMem_append_single (notMem_append_single
      (notMem_append_single h4 (by decide)) (by decide)) (by decide))
  rw [k3] at k4
  have k5 := assocSet_keys_new _ "updated_by" (Value.str cb)
    (by rw [k4]; exact notMem_append_single (notMem_append_single (notMem_append_single
      (notMem_append_single h5 (by decide)) (by decide)) (by decide)) (by decide))
  rw [k4] at k5
  have k6 := assocSet_keys_new _ "record_status" (Value.str "草稿")
    (by rw [k5]; exact notMem_append_single (notMem_append_single (notMem_append_single
      (notMem_append_single (notMem_append_single h6 (by decide)) (by decide)) (by decide))
      (by decide)) (by decide))
  rw [k5] at k6
  rw [e, k6]
  simp

theorem keys_examStamps (d : Pydict) (eid disp cb : String)
    (h1 : "exam_id" ∉ d.map Prod.fst) (h2 : "created_at" ∉ d.map Prod.fst)
    (h3 : "created_by" ∉ d.map Prod.fst) :
    (assocSet (assocSet (assocSet d "exam_id" (.str eid)) "created_at" (.str disp))
        "created_by" (.str cb)).map Prod.fst =
      d.map Prod.fst ++ ["exam_id", "created_at", "created_by"] := by
  have k1 := assocSet_keys_new d "exam_id" (.str eid) h1
  have k2 := assocSet_keys_new _ "created_at" (Value.str disp)
    (by rw [k1]; exact notMem_append_single h2 (by decide))
  rw [k1] at k2
  have k3 := assocSet_keys_new _ "created_by" (Value.str cb)
    (by rw [k2]; exact notMem_append_single (notMem_append_single h3 (by decide)) (by decide))
  rw [k2] at k3
  rw [k3]
  simp

/-! ## Theorems about the validator -/

theorem validate_field_fields {today : Nat × Nat × Nat} {f : String} {v : Value}
    {errs : List ValidationError} (h : validate_field today f v = .ok errs) :
    ∀ e ∈ errs, e.field = f := by
  unfold validate_field at h
  split at h
  · cases h
    simp
  · rename_i rules hr
    cases hl : validate_field_loop today v rules [] with
    | error e =>
      rw [hl] at h
      simp [Except.map] at h
    | ok l =>
      rw [hl] at h
      simp only [Except.map, Except.ok.injEq] at h
      subst h
      intro e he
      obtain ⟨a, _, rfl⟩ := List.mem_map.mp he
      rfl

theorem validate_record_go_fields (today : Nat × Nat × Nat) :
    ∀ (m : List (String × Value)) (acc errs : List ValidationError),
      validate_record_go today m acc = .ok errs →
      ∀ e ∈ errs, e ∈ acc ∨ e.field ∈ m.map Prod.fst := by
  intro m
  induction m with
  | nil =>
    intro acc errs h e he
    left
    have : acc = errs := by
      cases h
      rfl
    rw [this]
    exact he
  | cons p rest ih =>
    intro acc errs h e he
    obtain ⟨f, v⟩ := p
    unfold validate_record_go at h
    cases hv : validate_field today f v with
    | error err =>
      rw [hv] at h
      simp at h
    | ok es =>
      rw [hv] at h
      rcases ih (acc ++ es) errs h e he with hmem | hf
      · rcases List.mem_append.mp hmem with hm1 | hm2
        · left
          exact hm1
        · right
          have := validate_field_fields hv e hm2
          simp [this]
      · right
        simp [hf]

theorem validate_children_go_fields (today : Nat × Nat × Nat) (m : List (String × Value)) :
    ∀ (fls : List String) (acc errs : List ValidationError),
      validate_children_go today m fls acc = .ok errs →
      ∀ e ∈ errs, e ∈ acc ∨ e.field ∈ m.map Prod.fst := by
  intro fls
  induction fls with
  | nil =>
    intro acc errs h e he
    left
    have : acc = errs := by
      cases h
      rfl
    rw [this]
    exact he
  | cons f rest ih =>
    intro acc errs h e he
    unfold validate_children_go at h
    by_cases hc : (m.map Prod.fst).contains f
    · rw [if_pos hc] at h
      cases hv : validate_field today f ((pyGet m f).getD .vnone) with
      | error err =>
        rw [hv] at h
        simp at h
      | ok es =>
        rw [hv] at h
        rcases ih (acc ++ es) errs h e he with hmem | hf
        · rcases List.mem_append.mp hmem with hm1 | hm2
          · left
            exact hm1
          · right
            have hfe := validate_field_fields hv e hm2
            rw [hfe]
            simpa using hc
        · right
          exact hf
    · rw [if_neg hc] at h
      exact ih acc errs h e he

/-- C3 (code bug): for `visit_date` — a field with a Format rule whose
example the claim itself names — a non-empty value that does not parse
under `%Y-%m-%d` does not make `validate_field` return normally: the
Format rule does record a format-coded violation, but the later
`custom` visit-date rule calls `strptime` outside any handler, so the
call raises `ValueError` and the collected violations are lost.  For a
Format-rule field with no custom rule (`exam_date`), the claimed
behavior does hold, which exhibits the divergence. -/
theorem validate_field_visit_date_raises :
    validate_field (2024, 6, 1) "visit_date" (Value.str "2024/01/01") =
      .error (.valueError "time data does not match format %Y-%m-%d") ∧
    validate_field (2024, 6, 1) "exam_date" (Value.str "2024/01/01") =
      .ok [{ field := "exam_date", message := "日期格式不正确(YYYY-MM-DD)", code := "format" }] :=
  ⟨rfl, rfl⟩

/-- C6: when a field's registered rule list begins with a `Required`
rule and the value is missing (falsy, and not the number 0, which
counts as present), the rule loop stops as soon as the Required rule
fires: the result is exactly the one required-coded violation and no
later rule of that field contributes anything. -/
theorem validate_field_required_stops (today : Nat × Nat × Nat) (f msg : String)
    (rest : List Rule) (v : Value)
    (hrules : field_rules f = some (Rule.required msg :: rest))
    (hmissing : truthy v = false) (hnz : v ≠ .int 0) :
    validate_field today f v =
      .ok [{ field := f, message := msg, code := "required" }] := by
  have hreq : validate_required v msg = [verr msg "required"] := by
    unfold validate_required
    rw [if_pos]
    rw [hmissing]
    simp [hnz]
  unfold validate_field
  rw [hrules]
  simp [validate_field_loop, runRule, hreq, isRequiredRule, Except.map, stampField, verr]

/-- Witness for the C6 theorem: `patient_id` (whose rule list starts
with Required and also has a Regex rule) with the empty string. -/
theorem validate_field_required_stops_witness :
    validate_field (2024, 6, 1) "patient_id" (Value.str "") =
      .ok [{ field := "patient_id", message := "患者ID不能为空", code := "required" }] :=
  validate_field_required_stops (2024, 6, 1) "patient_id" "患者ID不能为空"
    [Rule.regex RegexPat.patientId "患者ID格式不正确(P+8位数字)"] (Value.str "")
    rfl rfl (by decide)

/-- C7 counterexample: on the 7-digit patient id the single violation
returned carries code "regex", not "format" — the list contains no
format-coded violation, refuting the claim as stated. -/
theorem validate_field_patient_id_no_format_code :
    hasFormatCoded (validate_field (2024, 6, 1) "patient_id" (Value.str "P1234567")) = false ∧
    validate_field (2024, 6, 1) "patient_id" (Value.str "P1234567") =
      .ok [{ field := "patient_id", message := "患者ID格式不正确(P+8位数字)", code := "regex" }] :=
  ⟨rfl, rfl⟩

/-- C7 amended: `validate_field("patient_id", "P1234567")` (7 digits)
returns exactly one violation, coded "regex" (the code the Regex rule
emits); `validate_field("patient_id", "P12345678")` (8 digits) returns
the empty list. -/
theorem validate_field_patient_id_amended (today : Nat × Nat × Nat) :
    validate_field today "patient_id" (Value.str "P1234567") =
      .ok [{ field := "patient_id", message := "患者ID格式不正确(P+8位数字)", code := "regex" }] ∧
    validate_field today "patient_id" (Value.str "P12345678") = .ok [] :=
  ⟨rfl, rfl⟩

/-- C5: `validate_record` and the per-child validators iterate only
over the keys actually present in the input map, so a field with a
registered Required rule that is absent from the map receives no
violation at all. -/
theorem absent_key_not_validated (today : Nat × Nat × Nat) (f : String) (rules : List Rule)
    (m : List (String × Value)) (errs errs2 : List ValidationError)
    (hreg : field_rules f = some rules) (hreq : rules.any isRequiredRule = true)
    (habs : f ∉ m.map Prod.fst)
    (h1 : validate_record today m = .ok errs)
    (h2 : validate_prescription today m = .ok errs2) :
    errs.filter (fun e => e.field == f) = [] ∧
    errs2.filter (fun e => e.field == f) = [] := by
  constructor
  · rw [List.filter_eq_nil_iff]
    intro e he
    simp only [beq_iff_eq]
    intro heq
    rcases validate_record_go_fields today m [] errs h1 e he with h | h
    · simp at h
    · rw [heq] at h
      exact habs h
  · rw [List.filter_eq_nil_iff]
    intro e he
    simp only [beq_iff_eq]
    intro heq
    rcases validate_children_go_fields today m _ [] errs2 h2 e he with h | h
    · simp at h
    · rw [heq] at h
      exact habs h

/-- Witness for the C5 theorem: `patient_id` has a Required rule but is
absent from the map, and no violation names it. -/
theorem absent_key_not_validated_witness :
    (([] : List ValidationError).filter (fun e => e.field == "patient_id") = []) ∧
    (([] : List ValidationError).filter (fun e => e.field == "patient_id") = []) :=
  absent_key_not_validated (2024, 6, 1) "patient_id"
    [Rule.required "患者ID不能为空", Rule.regex RegexPat.patientId "患者ID格式不正确(P+8位数字)"]
    [("department", Value.str "内科")] [] [] rfl rfl (by decide) rfl rfl

/-! ## Theorems about the record store -/

/-- C9: `update_record` on an identifier absent from the store raises
the not-found `ValueError` coming from `get_record`, before any SQL
runs: the store is left unchanged — no record row modified, no version
row appended. -/
theorem update_record_not_found (st : AgentState) (rid : String) (d : Pydict)
    (ub : String) (now : Timestamp) (vid : String)
    (h : st.medical_records.find? (rowHasId rid) = none) :
    (update_record st rid d ub now vid).2 =
      .error (.valueError ("病历记录不存在: " ++ rid)) ∧
    update_record_run st rid d ub now vid = st := by
  have hg : get_record st rid false = .error (.valueError ("病历记录不存在: " ++ rid)) := by
    unfold get_record
    rw [h]
  constructor
  · unfold update_record
    rw [hg]
  · unfold update_record_run update_record
    rw [hg]

/-- Witness for the C9 theorem: the empty store. -/
theorem update_record_not_found_witness :
    (update_record emptyState "missing" [] "u" fixTs0 "vid-9").2 =
      .error (.valueError ("病历记录不存在: " ++ "missing")) ∧
    update_record_run emptyState "missing" [] "u" fixTs0 "vid-9" = emptyState :=
  update_record_not_found emptyState "missing" [] "u" fixTs0 "vid-9" rfl

/-- C1 (code bug): every *successful* `update_record` appends a version
numbered 1, not previous_max_version + 1: the number is computed as
`len(current_record.get("versions", [])) + 1`, but `current_record`
comes from `get_record(record_id)` called without `include_versions`,
so the "versions" key is always absent and the length is always 0.
After n updates the stored version numbers are 1, 1, …, 1 (n+1 of
them), not the contiguous 1..n+1 the claim states (versions are indeed
only ever appended, never mutated or deleted). -/
theorem update_record_version_always_one (st : AgentState) (rid : String) (d : Pydict)
    (ub : String) (now : Timestamp) (vid : String) (st' : AgentState)
    (h : (update_record st rid d ub now vid).2 = .ok st') :
    ∃ vrow, st'.record_versions = st.record_versions ++ [vrow] ∧ vrow.version = 1 := by
  unfold update_record at h
  cases hg : get_record st rid false with
  | error e =>
    rw [hg] at h
    simp at h
  | ok view =>
    rw [hg] at h
    have hv : view.versions = none := by
      unfold get_record at hg
      cases hf : st.medical_records.find? (rowHasId rid) with
      | none =>
        rw [hf] at hg
        simp at hg
      | some row =>
        rw [hf] at hg
        simp only [Except.ok.injEq] at hg
        rw [← hg]
        simp
    have h' : (if updateGuard st (pyUpdate d (updateStamps (fmtDisp now) ub)) vid then
        Except.ok (updateApply st rid (pyUpdate d (updateStamps (fmtDisp now) ub))
          (updateVersionRow view rid (pyUpdate d (updateStamps (fmtDisp now) ub)) ub now vid))
      else Except.error PyErr.sqlError) = Except.ok st' := h
    by_cases hb : updateGuard st (pyUpdate d (updateStamps (fmtDisp now) ub)) vid
    · rw [if_pos hb] at h'
      have he := Except.ok.inj h'
      refine ⟨updateVersionRow view rid (pyUpdate d (updateStamps (fmtDisp now) ub)) ub now vid,
        ?_, ?_⟩
      · rw [← he]
        rfl
      · simp [updateVersionRow, hv]
    · rw [if_neg hb] at h'
      cases h'

/-- Witness for the C1 theorem: the fixture run (one create, one
update), whose two stored version numbers are both 1. -/
theorem update_record_version_always_one_witness :
    ∃ vrow, fixState2.record_versions = fixState.record_versions ++ [vrow] ∧
      vrow.version = 1 :=
  update_record_version_always_one fixState fixRid fixUpd "u2" fixTs1 "vid-2" fixState2 rfl

/-- C2 counterexample: updating the fixture record with the single-key
map `{"diagnosis": "Y"}` stores a version whose changed-fields list is
(the serialization of) `["diagnosis", "updated_at", "updated_by"]` —
the source stamps `updated_at`/`updated_by` into the caller's dict
*before* reading its keys — which differs from the serialization of the
caller's key set `["diagnosis"]`. -/
theorem update_changed_fields_includes_stamps :
    (fixState2.record_versions.getLast?).map (fun v => v.changed_fields) =
      some (jsonOfStrList ["diagnosis", "updated_at", "updated_by"]) ∧
    jsonOfStrList ["diagnosis", "updated_at", "updated_by"] ≠ jsonOfStrList ["diagnosis"] :=
  ⟨rfl, by decide⟩

/-- C2 amended: the changed-fields list of the appended version equals
the caller's keys *plus* `updated_at` and `updated_by` (stamped into
the dict before the version is written), whenever the caller's map did
not itself carry those two keys. -/
theorem update_record_changed_fields (st : AgentState) (rid : String) (d : Pydict)
    (ub : String) (now : Timestamp) (vid : String) (st' : AgentState)
    (h : (update_record st rid d ub now vid).2 = .ok st')
    (h1 : "updated_at" ∉ d.map Prod.fst) (h2 : "updated_by" ∉ d.map Prod.fst) :
    ∃ vrow, st'.record_versions = st.record_versions ++ [vrow] ∧
      vrow.changed_fields =
        jsonOfStrList (d.map Prod.fst ++ ["updated_at", "updated_by"]) := by
  unfold update_record at h
  cases hg : get_record st rid false with
  | error e =>
    rw [hg] at h
    simp at h
  | ok view =>
    rw [hg] at h
    have h' : (if updateGuard st (pyUpdate d (updateStamps (fmtDisp now) ub)) vid then
        Except.ok (updateApply st rid (pyUpdate d (updateStamps (fmtDisp now) ub))
          (updateVersionRow view rid (pyUpdate d (updateStamps (fmtDisp now) ub)) ub now vid))
      else Except.error PyErr.sqlError) = Except.ok st' := h
    by_cases hb : updateGuard st (pyUpdate d (updateStamps (fmtDisp now) ub)) vid
    · rw [if_pos hb] at h'
      have he := Except.ok.inj h'
      refine ⟨updateVersionRow view rid (pyUpdate d (updateStamps (fmtDisp now) ub)) ub now vid,
        ?_, ?_⟩
      · rw [← he]
        rfl
      · show jsonOfStrList ((pyUpdate d (updateStamps (fmtDisp now) ub)).map Prod.fst) = _
        rw [keys_updateStamps d (fmtDisp now) ub h1 h2]
    · rw [if_neg hb] at h'
      cases h'

/-- Witness for the C2 amended theorem: the fixture run. -/
theorem update_record_changed_fields_witness :
    ∃ vrow, fixState2.record_versions = fixState.record_versions ++ [vrow] ∧
      vrow.changed_fields =
        jsonOfStrList (fixUpd.map Prod.fst ++ ["updated_at", "updated_by"]) :=
  update_record_changed_fields fixState fixRid fixUpd "u2" fixTs1 "vid-2" fixState2
    rfl (by decide) (by decide)

/-- C10: `create_record`, `update_record` and `add_examination` mutate
the caller-supplied field map in place (modelled as the first component
of each call's result): after the call the caller's dict additionally
contains the generated identifier and the stamped audit/status entries,
appended in stamp order — it is not left unchanged.  `update_record`
mutates only once the record was found (`hfound`). -/
theorem caller_dict_mutated (st : AgentState) (d u ex : Pydict) (cb ub eb : String)
    (now : Timestamp) (vid rid : String) {row : Pydict}
    (hfound : st.medical_records.find? (rowHasId rid) = some row)
    (hd1 : "record_id" ∉ d.map Prod.fst) (hd2 : "created_at" ∉ d.map Prod.fst)
    (hd3 : "updated_at" ∉ d.map Prod.fst) (hd4 : "created_by" ∉ d.map Prod.fst)
    (hd5 : "updated_by" ∉ d.map Prod.fst) (hd6 : "record_status" ∉ d.map Prod.fst)
    (hu1 : "updated_at" ∉ u.map Prod.fst) (hu2 : "updated_by" ∉ u.map Prod.fst)
    (he1 : "exam_id" ∉ ex.map Prod.fst) (he2 : "created_at" ∉ ex.map Prod.fst)
    (he3 : "created_by" ∉ ex.map Prod.fst) :
    (pyGet (create_record st d cb now vid).1 "record_id" = some (.str ("R" ++ fmt14 now)) ∧
     pyGet (create_record st d cb now vid).1 "created_at" = some (.str (fmtDisp now)) ∧
     pyGet (create_record st d cb now vid).1 "updated_at" = some (.str (fmtDisp now)) ∧
     pyGet (create_record st d cb now vid).1 "record_status" = some (.str "草稿") ∧
     (create_record st d cb now vid).1.map Prod.fst = d.map Prod.fst ++
       ["record_id", "created_at", "updated_at", "created_by", "updated_by", "record_status"]) ∧
    (pyGet (update_record st rid u ub now vid).1 "updated_at" = some (.str (fmtDisp now)) ∧
     pyGet (update_record st rid u ub now vid).1 "updated_by" = some (.str ub) ∧
     (update_record st rid u ub now vid).1.map Prod.fst =
       u.map Prod.fst ++ ["updated_at", "updated_by"]) ∧
    (pyGet (add_examination st ex eb now).1 "exam_id" = some (.str ("E" ++ fmt14 now)) ∧
     pyGet (add_examination st ex eb now).1 "created_at" = some (.str (fmtDisp now)) ∧
     pyGet (add_examination st ex eb now).1 "created_by" = some (.str eb) ∧
     (add_examination st ex eb now).1.map Prod.fst =
       ex.map Prod.fst ++ ["exam_id", "created_at", "created_by"]) := by
  have e1 : (create_record st d cb now vid).1 =
      pyUpdate d (createStamps ("R" ++ fmt14 now) (fmtDisp now) cb) := rfl
  have hgv : get_record st rid false = .ok
      { fields := row
        examinations := st.examination_results.filter (rowHasId rid)
        prescriptions := st.prescriptions.filter (rowHasId rid)
        operations := st.operation_records.filter (rowHasId rid)
        attachments := st.record_attachments.filter (rowHasId rid)
        versions := none } := by
    unfold get_record
    rw [hfound]
    simp
  have e2 : (update_record st rid u ub now vid).1 =
      pyUpdate u (updateStamps (fmtDisp now) ub) := by
    unfold update_record
    rw [hgv]
  have e3 : (add_examination st ex eb now).1 =
      assocSet (assocSet (assocSet ex "exam_id" (.str ("E" ++ fmt14 now)))
        "created_at" (.str (fmtDisp now))) "created_by" (.str eb) := rfl
  obtain ⟨c1, c2, c3, c4, c5, c6, -⟩ := pyGet_createStamps d ("R" ++ fmt14 now) (fmtDisp now) cb
  obtain ⟨u1, u2, -⟩ := pyGet_updateStamps u (fmtDisp now) ub
  refine ⟨⟨?_, ?_, ?_, ?_, ?_⟩, ⟨?_, ?_, ?_⟩, ⟨?_, ?_, ?_, ?_⟩⟩
  · rw [e1, c1]
  · rw [e1, c2]
  · rw [e1, c3]
  · rw [e1, c6]
  · rw [e1, keys_createStamps d _ _ _ hd1 hd2 hd3 hd4 hd5 hd6]
  · rw [e2, u1]
  · rw [e2, u2]
  · rw [e2, keys_updateStamps u _ _ hu1 hu2]
  · rw [e3, pyGet_assocSet_ne _ _ _ _ (by decide), pyGet_assocSet_ne _ _ _ _ (by decide),
      pyGet_assocSet_self]
  · rw [e3, pyGet_assocSet_ne _ _ _ _ (by decide), pyGet_assocSet_self]
  · rw [e3, pyGet_assocSet_self]
  · rw [e3, keys_examStamps ex _ _ _ he1 he2 he3]

/-- Witness for the C10 theorem, on the fixture store. -/
theorem caller_dict_mutated_witness :
    (pyGet (create_record fixState fixData "u1" fixTs1 "vid-10").1 "record_id" =
        some (.str ("R" ++ fmt14 fixTs1)) ∧
     pyGet (create_record fixState fixData "u1" fixTs1 "vid-10").1 "created_at" =
        some (.str (fmtDisp fixTs1)) ∧
     pyGet (create_record fixState fixData "u1" fixTs1 "vid-10").1 "updated_at" =
        some (.str (fmtDisp fixTs1)) ∧
     pyGet (create_record fixState fixData "u1" fixTs1 "vid-10").1 "record_status" =
        some (.str "草稿") ∧
     (create_record fixState fixData "u1" fixTs1 "vid-10").1.map Prod.fst =
       fixData.map Prod.fst ++
       ["record_id", "created_at", "updated_at", "created_by", "updated_by", "record_status"]) ∧
    (pyGet (update_record fixState fixRid fixUpd "u2" fixTs1 "vid-10").1 "updated_at" =
        some (.str (fmtDisp fixTs1)) ∧
     pyGet (update_record fixState fixRid fixUpd "u2" fixTs1 "vid-10").1 "updated_by" =
        some (.str "u2") ∧
     (update_record fixState fixRid fixUpd "u2" fixTs1 "vid-10").1.map Prod.fst =
       fixUpd.map Prod.fst ++ ["updated_at", "updated_by"]) ∧
    (pyGet (add_examination fixState fixExam "u3" fixTs1).1 "exam_id" =
        some (.str ("E" ++ fmt14 fixTs1)) ∧
     pyGet (add_examination fixState fixExam "u3" fixTs1).1 "created_at" =
        some (.str (fmtDisp fixTs1)) ∧
     pyGet (add_examination fixState fixExam "u3" fixTs1).1 "created_by" =
        some (.str "u3") ∧
     (add_examination fixState fixExam "u3" fixTs1).1.map Prod.fst =
       fixExam.map Prod.fst ++ ["exam_id", "created_at", "created_by"]) :=
  caller_dict_mutated fixState fixData fixUpd fixExam "u1" "u2" "u3" fixTs1 "vid-10" fixRid
    rfl (by decide) (by decide) (by decide) (by decide) (by decide) (by decide)
    (by decide) (by decide) (by decide) (by decide) (by decide)

/-- C8: for a successful `search_records` call with 1-based page number
p ≥ 1 and page size s, the result is exactly the slice
[(p-1)·s, p·s) of the filtered result in its ORDER BY order (default:
`created_at` descending, the order `filteredSorted` carries), and a
page beyond the result count yields the empty list, not an error. -/
theorem search_records_pagination (st : AgentState) (p : SearchParams)
    (res : List Pydict)
    (hpage : 1 ≤ p.page.getD 1)
    (h : search_records st p = .ok res) :
    (∀ i, i < p.page_size.getD 10 →
      res[i]? = (filteredSorted st p)[(p.page.getD 1 - 1) * p.page_size.getD 10 + i]?) ∧
    (∀ i, p.page_size.getD 10 ≤ i → res[i]? = none) ∧
    ((filteredSorted st p).length ≤ (p.page.getD 1 - 1) * p.page_size.getD 10 →
      res = []) := by
  unfold search_records at h
  by_cases hb : (recordCols.contains (p.sort_by.getD "created_at")
      && ["asc", "desc"].contains (p.sort_order.getD "desc"))
  · rw [if_pos hb] at h
    have hres : res = ((filteredSorted st p).drop
        ((p.page.getD 1 - 1) * p.page_size.getD 10)).take (p.page_size.getD 10) :=
      (Except.ok.inj h).symm
    subst hres
    refine ⟨?_, ?_, ?_⟩
    · intro i hi
      rw [List.getElem?_take, if_pos hi, List.getElem?_drop]
    · intro i hi
      apply List.getElem?_eq_none
      exact Nat.le_trans (List.length_take_le _ _) hi
    · intro hlen
      rw [List.drop_eq_nil_of_le hlen, List.take_nil]
  · rw [if_neg hb] at h
    cases h

/-- Witness for the C8 theorem: three 内科 records, page 2 of size 2 —
position 0 of the result is position 2 of the ordered filtered list. -/
theorem search_records_pagination_witness :
    [c8row1][0]? = (filteredSorted c8State c8Params)[2]? :=
  (search_records_pagination c8State c8Params [c8row1] (by decide) rfl).1 0 (by decide)

/-! ## Timestamp formatting lemmas (towards C4) -/

theorem digitChar_isDigit {m : Nat} (h : m ≤ 9) : (Nat.digitChar m).isDigit = true := by
  interval_cases m <;> decide

theorem digitChar_inj {a b : Nat} (ha : a ≤ 9) (hb : b ≤ 9)
    (h : Nat.digitChar a = Nat.digitChar b) : a = b := by
  interval_cases a <;> interval_cases b <;> revert h <;> decide

theorem pad2_digits {n : Nat} (h : n ≤ 99) : (pad2 n).all Char.isDigit = true := by
  simp [pad2, digitChar_isDigit (show n / 10 ≤ 9 by omega),
    digitChar_isDigit (show n % 10 ≤ 9 by omega)]

theorem pad4_digits {n : Nat} (h : n ≤ 9999) : (pad4 n).all Char.isDigit = true := by
  simp [pad4, digitChar_isDigit (show n / 1000 ≤ 9 by omega),
    digitChar_isDigit (show n / 100 % 10 ≤ 9 by omega),
    digitChar_isDigit (show n / 10 % 10 ≤ 9 by omega),
    digitChar_isDigit (show n % 10 ≤ 9 by omega)]

theorem fmt14_data (t : Timestamp) : (fmt14 t).data =
    pad4 t.year ++ pad2 t.month ++ pad2 t.day ++ pad2 t.hour ++
      pad2 t.minute ++ pad2 t.second := rfl

theorem fmt14_length (t : Timestamp) : (fmt14 t).length = 14 := by
  show (fmt14 t).data.length = 14
  rw [fmt14_data]
  simp [pad2, pad4]

theorem fmt14_digits {t : Timestamp} (h : tsWF t) :
    (fmt14 t).data.all Char.isDigit = true := by
  obtain ⟨h1, h2, h3, h4, h5, h6, h7, h8, h9⟩ := h
  rw [fmt14_data]
  simp only [List.all_append, Bool.and_eq_true]
  exact ⟨⟨⟨⟨⟨pad4_digits (by omega), pad2_digits (by omega)⟩, pad2_digits (by omega)⟩,
    pad2_digits (by omega)⟩, pad2_digits (by omega)⟩, pad2_digits (by omega)⟩

theorem fmt14_inj {t t' : Timestamp} (ht : tsWF t) (ht' : tsWF t')
    (h : fmt14 t = fmt14 t') : t = t' := by
  obtain ⟨ty, tmo, td, th, tmi, ts⟩ := t
  obtain ⟨uy, umo, ud, uh, umi, us⟩ := t'
  unfold tsWF at ht ht'
  simp only at ht ht'
  obtain ⟨a1, a2, a3, a4, a5, a6, a7, a8, a9⟩ := ht
  obtain ⟨b1, b2, b3, b4, b5, b6, b7, b8, b9⟩ := ht'
  have hd := congrArg String.data h
  rw [fmt14_data, fmt14_data] at hd
  simp only [pad2, pad4, List.cons_append, List.nil_append, List.cons.injEq, and_true] at hd
  obtain ⟨q1, q2, q3, q4, q5, q6, q7, q8, q9, q10, q11, q12, q13, q14⟩ := hd
  have e1 := digitChar_inj (by omega) (by omega) q1
  have e2 := digitChar_inj (by omega) (by omega) q2
  have e3 := digitChar_inj (by omega) (by omega) q3
  have e4 := digitChar_inj (by omega) (by omega) q4
  have e5 := digitChar_inj (by omega) (by omega) q5
  have e6 := digitChar_inj (by omega) (by omega) q6
  have e7 := digitChar_inj (by omega) (by omega) q7
  have e8 := digitChar_inj (by omega) (by omega) q8
  have e9 := digitChar_inj (by omega) (by omega) q9
  have e10 := digitChar_inj (by omega) (by omega) q10
  have e11 := digitChar_inj (by omega) (by omega) q11
  have e12 := digitChar_inj (by omega) (by omega) q12
  have e13 := digitChar_inj (by omega) (by omega) q13
  have e14 := digitChar_inj (by omega) (by omega) q14
  simp only [Timestamp.mk.injEq]
  refine ⟨by omega, by omega, by omega, by omega, by omega, by omega⟩

theorem rid_string_inj {t t' : Timestamp} (ht : tsWF t) (ht' : tsWF t')
    (h : "R" ++ fmt14 t = "R" ++ fmt14 t') : t = t' := by
  apply fmt14_inj ht ht'
  apply String.ext
  have hd := congrArg String.data h
  rw [String.data_append, String.data_append] at hd
  exact List.append_cancel_left hd

/-! ## Row and column lemmas (towards C4) -/

theorem pyGet_mkRow (cols : List String) (d : Pydict) (k : String) (hk : k ∈ cols) :
    pyGet (mkRow cols d) k = some ((pyGet d k).getD .vnone) := by
  induction cols with
  | nil => cases hk
  | cons c rest ih =>
    have e : mkRow (c :: rest) d = (c, (pyGet d c).getD .vnone) :: mkRow rest d := rfl
    rw [e, pyGet_cons]
    by_cases hc : c == k
    · have hce : c = k := by simpa using hc
      rw [if_pos hc, hce]
    · rw [if_neg hc]
      apply ih
      rcases List.mem_cons.mp hk with hk1 | hk2
      · exact absurd (by simp [hk1]) hc
      · exact hk2

theorem colsOk_assocSet (cols : List String) (d : Pydict) (k : String) (v : Value)
    (hd : colsOk cols d = true) (hk : cols.contains k = true) :
    colsOk cols (assocSet d k v) = true := by
  unfold colsOk at hd ⊢
  unfold assocSet
  by_cases ha : d.any (fun p => p.1 == k)
  · rw [if_pos ha, List.all_eq_true]
    intro p hp
    obtain ⟨q, hq, hqe⟩ := List.mem_map.mp hp
    by_cases hqk : q.1 == k
    · rw [if_pos hqk] at hqe
      rw [← hqe]
      exact hk
    · rw [if_neg hqk] at hqe
      rw [← hqe]
      exact List.all_eq_true.mp hd q hq
  · rw [if_neg ha, List.all_append, hd, Bool.true_and]
    simp only [List.all_cons, List.all_nil, Bool.and_true]
    exact hk

theorem colsOk_pyUpdate (cols : List String) (kvs : List (String × Value)) :
    ∀ d : Pydict, colsOk cols d = true → (∀ p ∈ kvs, cols.contains p.1 = true) →
      colsOk cols (pyUpdate d kvs) = true := by
  induction kvs with
  | nil =>
    intro d hd _
    exact hd
  | cons p rest ih =>
    intro d hd hkvs
    have e : pyUpdate d (p :: rest) = pyUpdate (assocSet d p.1 p.2) rest := rfl
    rw [e]
    exact ih _ (colsOk_assocSet cols d p.1 p.2 hd (hkvs p (by simp)))
      (fun q hq => hkvs q (by simp [hq]))

/-- C4: for a valid input field map (only known columns, the NOT NULL
clinical columns present and non-null), a well-formed clock value whose
second differs from every previously issued record's, and a fresh
version uuid, `create_record` succeeds and `CreateRecordPost` holds:
fresh `R` + 14-digit identifier, `get_record` returns the input plus
audit stamps with status = draft, and version 1 (content = the full
stamped field set) is created in the same transaction. -/
theorem create_record_spec (st : AgentState) (d : Pydict) (cb : String)
    (now : Timestamp) (vid : String)
    (hts : tsWF now)
    (hc : colsOk recordCols d = true)
    (hn : notNullOk ["patient_id", "record_type", "visit_date", "department", "doctor",
      "diagnosis"] d = true)
    (hprev : ∀ r ∈ st.medical_records, ∃ t', tsWF t' ∧ t' ≠ now ∧
      pyGet r "record_id" = some (.str ("R" ++ fmt14 t')))
    (hvid : ∀ v ∈ st.record_versions, v.version_id ≠ vid) :
    CreateRecordPost st d cb now vid := by
  obtain ⟨c1, c2, c3, c4, c5, c6, cg⟩ :=
    pyGet_createStamps d ("R" ++ fmt14 now) (fmtDisp now) cb
  have hfresh : ∀ r ∈ st.medical_records,
      pyGet r "record_id" ≠ some (.str ("R" ++ fmt14 now)) := by
    intro r hr heq
    obtain ⟨t', hwf, hne, hval⟩ := hprev r hr
    rw [hval] at heq
    exact hne (rid_string_inj hwf hts (Value.str.inj (Option.some.inj heq)))
  have hcs : colsOk recordCols
      (pyUpdate d (createStamps ("R" ++ fmt14 now) (fmtDisp now) cb)) = true := by
    apply colsOk_pyUpdate recordCols _ d hc
    intro p hp
    simp only [createStamps, List.mem_cons, List.not_mem_nil, or_false] at hp
    rcases hp with rfl | rfl | rfl | rfl | rfl | rfl <;> simp [recordCols]
  have hns : notNullOk recordNotNull
      (pyUpdate d (createStamps ("R" ++ fmt14 now) (fmtDisp now) cb)) = true := by
    have g1 := cg "patient_id" (by decide)
    have g2 := cg "record_type" (by decide)
    have g3 := cg "visit_date" (by decide)
    have g4 := cg "department" (by decide)
    have g5 := cg "doctor" (by decide)
    have g6 := cg "diagnosis" (by decide)
    unfold notNullOk at hn ⊢
    unfold recordNotNull
    simp only [List.all_cons, List.all_nil, Bool.and_true, Bool.and_eq_true] at hn ⊢
    obtain ⟨n1, n2, n3, n4, n5, n6⟩ := hn
    refine ⟨?_, ?_, ?_, ?_, ?_, ?_, ?_, ?_, ?_, ?_, ?_, ?_⟩
    · rw [c1]
      simp
    · rw [g1]
      exact n1
    · rw [g2]
      exact n2
    · rw [g3]
      exact n3
    · rw [g4]
      exact n4
    · rw [g5]
      exact n5
    · rw [g6]
      exact n6
    · rw [c6]
      simp
    · rw [c2]
      simp
    · rw [c3]
      simp
    · rw [c4]
      simp
    · rw [c5]
      simp
  have hguard : createGuard st
      (pyUpdate d (createStamps ("R" ++ fmt14 now) (fmtDisp now) cb))
      ("R" ++ fmt14 now) vid = true := by
    unfold createGuard
    rw [hcs, hns]
    have ha1 : st.medical_records.any
        (fun r => pyGet r "record_id" == some (.str ("R" ++ fmt14 now))) = false := by
      rw [List.any_eq_false]
      intro r hr
      simpa using hfresh r hr
    have ha2 : st.record_versions.any (fun v => v.version_id == vid) = false := by
      rw [List.any_eq_false]
      intro v hv
      simpa using hvid v hv
    rw [ha1, ha2]
    rfl
  have hcr : (create_record st d cb now vid).2 =
      .ok ("R" ++ fmt14 now,
        createApply st (pyUpdate d (createStamps ("R" ++ fmt14 now) (fmtDisp now) cb))
          (createVersionRow
            (pyUpdate d (createStamps ("R" ++ fmt14 now) (fmtDisp now) cb))
            ("R" ++ fmt14 now) vid now cb)) := by
    have e : (create_record st d cb now vid).2 =
        if createGuard st (pyUpdate d (createStamps ("R" ++ fmt14 now) (fmtDisp now) cb))
            ("R" ++ fmt14 now) vid then
          .ok ("R" ++ fmt14 now,
            createApply st (pyUpdate d (createStamps ("R" ++ fmt14 now) (fmtDisp now) cb))
              (createVersionRow
                (pyUpdate d (createStamps ("R" ++ fmt14 now) (fmtDisp now) cb))
                ("R" ++ fmt14 now) vid now cb))
        else .error .sqlError := rfl
    rw [e, if_pos hguard]
  have hnone : st.medical_records.find? (rowHasId ("R" ++ fmt14 now)) = none := by
    rw [List.find?_eq_none]
    intro r hr
    unfold rowHasId
    simpa using hfresh r hr
  have hrowid : rowHasId ("R" ++ fmt14 now)
      (mkRow recordCols (pyUpdate d (createStamps ("R" ++ fmt14 now) (fmtDisp now) cb))) = true := by
    unfold rowHasId
    rw [pyGet_mkRow recordCols _ "record_id" (by decide), c1]
    simp
  have hfind : (st.medical_records ++
      [mkRow recordCols (pyUpdate d (createStamps ("R" ++ fmt14 now) (fmtDisp now) cb))]).find?
        (rowHasId ("R" ++ fmt14 now)) =
      some (mkRow recordCols (pyUpdate d (createStamps ("R" ++ fmt14 now) (fmtDisp now) cb))) := by
    rw [List.find?_append, hnone, List.find?_cons_of_pos _ hrowid]
    rfl
  refine ⟨_,
    { fields := mkRow recordCols (pyUpdate d (createStamps ("R" ++ fmt14 now) (fmtDisp now) cb))
      examinations := st.examination_results.filter (rowHasId ("R" ++ fmt14 now))
      prescriptions := st.prescriptions.filter (rowHasId ("R" ++ fmt14 now))
      operations := st.operation_records.filter (rowHasId ("R" ++ fmt14 now))
      attachments := st.record_attachments.filter (rowHasId ("R" ++ fmt14 now))
      versions := none },
    hcr, ?_, ?_, ?_, hfresh, ?_, rfl, ?_, cg, ?_, ?_, ?_, ?_, ?_, rfl, rfl, rfl⟩
  · show ('R' :: (fmt14 now).data).length = 15
    have h14 : (fmt14 now).data.length = 14 := fmt14_length now
    simp only [List.length_cons]
    omega
  · rfl
  · show ((fmt14 now).data).all Char.isDigit = true
    exact fmt14_digits hts
  · unfold get_record
    have e2 : (createApply st
        (pyUpdate d (createStamps ("R" ++ fmt14 now) (fmtDisp now) cb))
        (createVersionRow (pyUpdate d (createStamps ("R" ++ fmt14 now) (fmtDisp now) cb))
          ("R" ++ fmt14 now) vid now cb)).medical_records =
        st.medical_records ++
          [mkRow recordCols (pyUpdate d (createStamps ("R" ++ fmt14 now) (fmtDisp now) cb))] := rfl
    rw [e2, hfind]
    simp [createApply]
  · intro k v hkv
    have hkmem : k ∈ recordCols := by
      have := List.all_eq_true.mp hcs (k, v) (pyGet_eq_some_mem hkv)
      simpa using this
    show pyGet (mkRow recordCols
      (pyUpdate d (createStamps ("R" ++ fmt14 now) (fmtDisp now) cb))) k = some v
    rw [pyGet_mkRow recordCols _ k hkmem, hkv]
    rfl
  · show pyGet (mkRow recordCols
      (pyUpdate d (createStamps ("R" ++ fmt14 now) (fmtDisp now) cb))) "record_status" = _
    rw [pyGet_mkRow recordCols _ _ (by decide), c6]
    rfl
  · show pyGet (mkRow recordCols
      (pyUpdate d (createStamps ("R" ++ fmt14 now) (fmtDisp now) cb))) "created_at" = _
    rw [pyGet_mkRow recordCols _ _ (by decide), c2]
    rfl
  · show pyGet (mkRow recordCols
      (pyUpdate d (createStamps ("R" ++ fmt14 now) (fmtDisp now) cb))) "updated_at" = _
    rw [pyGet_mkRow recordCols _ _ (by decide), c3]
    rfl
  · show pyGet (mkRow recordCols
      (pyUpdate d (createStamps ("R" ++ fmt14 now) (fmtDisp now) cb))) "created_by" = _
    rw [pyGet_mkRow recordCols _ _ (by decide), c4]
    rfl
  · show pyGet (mkRow recordCols
      (pyUpdate d (createStamps ("R" ++ fmt14 now) (fmtDisp now) cb))) "updated_by" = _
    rw [pyGet_mkRow recordCols _ _ (by decide), c5]
    rfl

/-- Witness for the C4 theorem: creating the fixture record in the
empty store. -/
theorem create_record_spec_witness : CreateRecordPost emptyState fixData "u1" fixTs0 "vid-1" :=
  create_record_spec emptyState fixData "u1" fixTs0 "vid-1" (by decide) (by decide) (by decide)
    (by intro r hr; exact absurd hr (List.not_mem_nil r))
    (by intro v hv; exact absurd hv (List.not_mem_nil v))

end MedRec

